import Mathlib

/-!
Shallow embedding of `src/main.py`: a two-phase pipeline that filters a
catalog of items to images, downloads each image concurrently (asyncio
`gather`), and then runs a blob-detection pass over each downloaded file in a
process pool.  Network responses, file-write failures, image loading and the
opaque OpenCV detector are modelled as explicit environments; each task's
observable effects (returned value, files written, printed diagnostics,
progress-bar increments) are recorded in an effects record.  `asyncio.gather`
returns results in submission order and each task's effects depend only on its
own inputs, so a stage is the ordered map of the per-task function over the
task list.
-/

/-- A catalog item as consumed by `main`: the fields accessed via
`item.get("media_type")`, `item.get("hdurl")`, `item.get("url")`.
`none` models an absent (or JSON-null) field. -/
structure Item where
  media_type : Option String
  hdurl : Option String
  url : Option String
deriving DecidableEq, Repr

/-- Python truthiness of `item.get(...)` for a string-valued field:
`None` and the empty string are falsy, every other string is truthy. -/
def pyTruthy : Option String → Bool
  | none => false
  | some s => !(s == "")

/-- `item.get("hdurl") or item.get("url")` (main.py line 86): Python `or`
yields the first operand when it is truthy, otherwise the second. -/
def chooseUrl (item : Item) : Option String :=
  if pyTruthy item.hdurl then item.hdurl else item.url

/-- `valid_items = [item for item in data if item.get("media_type") == "image"]`
(main.py line 78). -/
def validItems (data : List Item) : List Item :=
  data.filter (fun item => item.media_type == some "image")

/-- The synthesized target filename for the item at zero-based position `i`
in the filtered sequence: `f"space_{i}.jpg"` (main.py line 87). -/
def spaceFilename (i : Nat) : String :=
  "space_" ++ toString i ++ ".jpg"

/-- The outcome of `session.get(url)` followed by `response.read()`:
either a response with a status code and a body, or a raised exception
carrying a message. -/
inductive RequestResult where
  | resp (status : Nat) (body : List Nat)
  | exn (msg : String)
deriving DecidableEq, Repr

/-- The download-phase environment: what the network returns for each URL
(`none` models `session.get(None)` when both `hdurl` and `url` are absent,
which raises — the environment decides) and whether writing a given target
file raises (`some msg`) or succeeds (`none`). -/
structure DownloadEnv where
  request : Option String → RequestResult
  writeExn : String → Option String

/-- Observable effects of one download task: the value the coroutine returns
(`some filename` or Python `None`), the files it writes with their contents,
the diagnostic lines it prints, and how many times it calls `pbar.update(1)`. -/
structure DlEffects where
  result : Option String
  written : List (String × List Nat)
  diagnostics : List String
  pbarIncrements : Nat
deriving DecidableEq, Repr

/-- `download_image(session, url, filename, pbar)` (main.py lines 16-32).
The `try` block issues the request; on status 200 it reads the body, writes it
to `filename`, updates the progress bar and returns the filename; on any other
status it prints `Failed to download {filename}: {status}` and falls out of
the function (returning `None`) WITHOUT updating the progress bar; any
exception from the request or the write is caught, `Error downloading
{filename}: {e}` is printed, the progress bar is updated and `None` is
returned.  A write that raises is modelled as writing nothing. -/
def download_image (env : DownloadEnv) (url : Option String) (filename : String) :
    DlEffects :=
  match env.request url with
  | RequestResult.resp status body =>
      if status = 200 then
        match env.writeExn filename with
        | none =>
            { result := some filename
              written := [(filename, body)]
              diagnostics := []
              pbarIncrements := 1 }
        | some e =>
            { result := none
              written := []
              diagnostics := ["Error downloading " ++ filename ++ ": " ++ e]
              pbarIncrements := 1 }
      else
        { result := none
          written := []
          diagnostics := ["Failed to download " ++ filename ++ ": " ++ toString status]
          pbarIncrements := 0 }
  | RequestResult.exn e =>
      { result := none
        written := []
        diagnostics := ["Error downloading " ++ filename ++ ": " ++ e]
        pbarIncrements := 1 }

/-- The download tasks built by the loop at main.py lines 84-87: for each
`(i, item)` of `enumerate(valid_items)`, the pair of the chosen URL and the
target filename `space_{i}.jpg`, in item order. -/
def downloadTasks (items : List Item) : List (Option String × String) :=
  items.enum.map (fun p => (chooseUrl p.2, spaceFilename p.1))

/-- `await asyncio.gather(*tasks)` over the download tasks (main.py line 89):
the per-task effects in submission (input) order. -/
def downloadStage (env : DownloadEnv) (items : List Item) : List DlEffects :=
  (downloadTasks items).map (fun t => download_image env t.1 t.2)

/-- `download_files` (main.py line 89): the value returned by each task,
in submission order. -/
def download_files (env : DownloadEnv) (items : List Item) : List (Option String) :=
  (downloadStage env items).map DlEffects.result

/-- `downloaded_files = [f for f in download_files if f]` (main.py line 93):
keeps the truthy results (a `None` or an empty-string filename is dropped). -/
def downloaded_files (env : DownloadEnv) (items : List Item) : List String :=
  (download_files env items).filterMap (fun o =>
    match o with
    | some s => if s = "" then none else some s
    | none => none)

/-- The final value of the download progress bar: the total number of
`pbar.update(1)` calls across all download tasks. -/
def downloadCounter (env : DownloadEnv) (items : List Item) : Nat :=
  ((downloadStage env items).map DlEffects.pbarIncrements).sum

/-- The analysis-phase environment: `cv2.imread` modelled as returning a
loaded image handle or `none` on failure, and the opaque
grayscale-plus-`SimpleBlobDetector` pipeline modelled as the number of
keypoints it finds on a loaded image. -/
structure AnalysisEnv where
  imread : String → Option Nat
  detectCount : Nat → Nat

/-- Observable effects of one `detect_stars_and_process` call: the summary
string it returns and the output files it writes. -/
structure AnalysisEffects where
  summary : String
  written : List String
deriving DecidableEq, Repr

/-- `detect_stars_and_process(filename)` (main.py lines 37-64): load the image;
if loading fails return `Error loading {filename}`; otherwise run the blob
detector, write the annotated copy to `detected_{filename}` and return
`Found {n} stars in {filename}`. -/
def detect_stars_and_process (env : AnalysisEnv) (filename : String) :
    AnalysisEffects :=
  match env.imread filename with
  | none =>
      { summary := "Error loading " ++ filename
        written := [] }
  | some img =>
      { summary := "Found " ++ toString (env.detectCount img) ++ " stars in " ++ filename
        written := ["detected_" ++ filename] }

/-- The futures dispatched at main.py lines 107-110: one
`run_in_executor(pool, detect_stars_and_process, fname)` per filename, each
with `add_done_callback(lambda _: pbar.update(1))`.  A future's done callback
fires exactly once when the future resolves, so each dispatched job is paired
with its single progress-bar increment. -/
def analysisFutures (env : AnalysisEnv) (fns : List String) :
    List (AnalysisEffects × Nat) :=
  fns.map (fun fname => (detect_stars_and_process env fname, 1))

/-- `analysis_summaries = await asyncio.gather(*results)` (main.py line 114):
the summary strings of the dispatched futures, in submission order. -/
def analysis_summaries (env : AnalysisEnv) (fns : List String) : List String :=
  (analysisFutures env fns).map (fun p => p.1.summary)

/-- The final value of the analysis progress bar: the total number of
`pbar.update(1)` calls fired by the done callbacks. -/
def analysisCounter (env : AnalysisEnv) (fns : List String) : Nat :=
  ((analysisFutures env fns).map (fun p => p.2)).sum

/-- URL selection as the spec's sentence reads: "`hdUrl` if present else
`url`" — the `hdurl` field whenever it is present, with no truthiness test.
Stated only to compare against `chooseUrl`, the embedding of the code. -/
def specChooseUrl (item : Item) : Option String :=
  match item.hdurl with
  | some s => some s
  | none => item.url

/-- A concrete catalog item: an image with no `hdurl`. -/
def imgItem : Item where
  media_type := some "image"
  hdurl := none
  url := some "https://example.com/a.jpg"

/-- A concrete catalog item whose `hdurl` is present but the empty string. -/
def itemEmptyHd : Item where
  media_type := some "image"
  hdurl := some ""
  url := some "https://example.com/a.jpg"

/-- A concrete catalog item whose media type is `video`. -/
def videoItem : Item where
  media_type := some "video"
  hdurl := none
  url := some "https://example.com/v.mp4"

/-- A download environment in which every request gets HTTP 404. -/
def env404 : DownloadEnv where
  request := fun _ => RequestResult.resp 404 []
  writeExn := fun _ => none

/-- A download environment in which every request succeeds with body `[7, 7]`
and every write succeeds. -/
def envOk : DownloadEnv where
  request := fun _ => RequestResult.resp 200 [7, 7]
  writeExn := fun _ => none

/-- A download environment in which every request raises an exception. -/
def envExn : DownloadEnv where
  request := fun _ => RequestResult.exn "boom"
  writeExn := fun _ => none

/-- An analysis environment in which every image fails to load. -/
def envLoadFail : AnalysisEnv where
  imread := fun _ => none
  detectCount := fun _ => 0

/-- An analysis environment in which every image loads and five stars are
detected. -/
def envLoadOk : AnalysisEnv where
  imread := fun _ => some 0
  detectCount := fun _ => 5

/-- Helper: a download task's returned value is either its own target filename
(success) or `None` (non-200 status, request exception, or write exception). -/
theorem download_image_result_cases (env : DownloadEnv) (u : Option String)
    (f : String) :
    (download_image env u f).result = some f ∨
    (download_image env u f).result = none := by
  rcases hreq : env.request u with ⟨status, body⟩ | e
  · by_cases h : status = 200
    · rcases hw : env.writeExn f with _ | e2 <;> simp [download_image, hreq, h, hw]
    · simp [download_image, hreq, h]
  · simp [download_image, hreq]

/-- Helper: synthesized target filenames are never the empty string. -/
theorem spaceFilename_ne_empty (i : Nat) : spaceFilename i ≠ "" := by
  intro h
  have hlen := congrArg String.length h
  simp [spaceFilename, String.length_append] at hlen
  exact absurd hlen.1.1 (by decide)

/-- Helper: the `i`-th download task pairs the `i`-th filtered item's chosen
URL with the filename `space_{i}.jpg`. -/
theorem downloadTasks_getElem (items : List Item) (i : Nat) :
    (downloadTasks items)[i]? =
      (items[i]?).map (fun it => (chooseUrl it, spaceFilename i)) := by
  simp [downloadTasks, List.getElem?_map, List.getElem?_enum]
  cases items[i]? <;> simp

/-- Helper: the `i`-th entry of the gathered download results is
`download_image` applied to the `i`-th task alone. -/
theorem downloadStage_getElem (env : DownloadEnv) (items : List Item) (i : Nat) :
    (downloadStage env items)[i]? =
      ((downloadTasks items)[i]?).map (fun t => download_image env t.1 t.2) := by
  simp [downloadStage, List.getElem?_map]

/-- Helper: the download stage yields one effects record per input item. -/
theorem downloadStage_length (env : DownloadEnv) (items : List Item) :
    (downloadStage env items).length = items.length := by
  simp [downloadStage, downloadTasks]

/-- Helper: because every produced filename is a nonempty `space_{i}.jpg`, the
truthiness filter `[f for f in download_files if f]` coincides with dropping
the `None` entries. -/
theorem downloaded_files_eq_filterMap (env : DownloadEnv) (items : List Item) :
    downloaded_files env items = (download_files env items).filterMap id := by
  unfold downloaded_files
  apply List.filterMap_congr
  intro o ho
  rcases List.mem_map.mp ho with ⟨eff, heff, rfl⟩
  rcases List.mem_map.mp heff with ⟨t, ht, rfl⟩
  rcases List.mem_map.mp ht with ⟨p, hp, rfl⟩
  rcases download_image_result_cases env (chooseUrl p.2) (spaceFilename p.1) with hr | hr
  · rw [hr]
    simp [spaceFilename_ne_empty p.1]
  · rw [hr]
    rfl

/-- Claim C1 (code bug in `download_image`): the claim says every attempted
download increments the progress counter exactly once so the counter ends at
N; but the non-200 branch of `download_image` prints its diagnostic and falls
out of the function without calling `pbar.update(1)`.  With one filtered item
whose request returns HTTP 404, N = 1 yet the counter ends at 0. -/
theorem downloadCounter_misses_non200 :
    (downloadTasks [imgItem]).length = 1 ∧
    (downloadStage env404 [imgItem]).length = 1 ∧
    (download_image env404 (some "https://example.com/a.jpg")
        (spaceFilename 0)).pbarIncrements = 0 ∧
    downloadCounter env404 [imgItem] = 0 :=
  ⟨rfl, rfl, rfl, rfl⟩

/-- Claim C2: the Download Stage returns one result per input item, in input
order; the result at position `i` is `space_{i}.jpg` on success and the
failure marker `None` otherwise; the caller's filtered success list is
exactly the non-`None` results in input order. -/
theorem downloadStage_ordered_results (env : DownloadEnv) (items : List Item) :
    (download_files env items).length = items.length ∧
    (∀ i : Nat, ∀ eff : DlEffects, (downloadStage env items)[i]? = some eff →
      eff.result = some (spaceFilename i) ∨ eff.result = none) ∧
    downloaded_files env items = (download_files env items).filterMap id := by
  refine ⟨?_, ?_, downloaded_files_eq_filterMap env items⟩
  · simp [download_files, downloadStage, downloadTasks]
  · intro i eff heff
    rw [downloadStage_getElem, downloadTasks_getElem] at heff
    rcases hi : items[i]? with _ | it
    · rw [hi] at heff
      simp at heff
    · rw [hi] at heff
      simp at heff
      rw [← heff]
      exact download_image_result_cases env (chooseUrl it) (spaceFilename i)

/-- Witness for C2: with one item and an all-200 environment, the result at
position 0 is the filename `space_0.jpg` or the failure marker. -/
theorem downloadStage_ordered_results_witness :
    (download_image envOk (some "https://example.com/a.jpg")
        (spaceFilename 0)).result = some (spaceFilename 0) ∨
    (download_image envOk (some "https://example.com/a.jpg")
        (spaceFilename 0)).result = none :=
  (downloadStage_ordered_results envOk [imgItem]).2.1 0
    (download_image envOk (some "https://example.com/a.jpg") (spaceFilename 0)) rfl

/-- Claim C9: on the empty filtered list both stages return empty result
lists, the filtered success list is empty, and both progress counters end at
0 — everything completes normally. -/
theorem empty_input_completes_empty (denv : DownloadEnv) (aenv : AnalysisEnv) :
    downloadStage denv [] = [] ∧ download_files denv [] = [] ∧
    downloaded_files denv [] = [] ∧ downloadCounter denv [] = 0 ∧
    analysis_summaries aenv [] = [] ∧ analysisCounter aenv [] = 0 :=
  ⟨rfl, rfl, rfl, rfl, rfl, rfl⟩

/-- Claim C3: the Analysis Stage yields exactly one summary per input
filename; when loading the image for a filename fails, that call returns the
error string `Error loading {filename}` (which contains the filename) without
raising and writes no annotated output, and that error string appears among
the stage's summaries. -/
theorem analysis_one_result_per_file (env : AnalysisEnv) (fns : List String) :
    (analysis_summaries env fns).length = fns.length ∧
    (∀ f : String, env.imread f = none →
      (detect_stars_and_process env f).summary = "Error loading " ++ f ∧
      (detect_stars_and_process env f).written = []) ∧
    (∀ f : String, f ∈ fns → env.imread f = none →
      ("Error loading " ++ f) ∈ analysis_summaries env fns) := by
  refine ⟨?_, ?_, ?_⟩
  · simp [analysis_summaries, analysisFutures]
  · intro f hf
    simp [detect_stars_and_process, hf]
  · intro f hmem hf
    have hsum : ("Error loading " ++ f) = (detect_stars_and_process env f).summary := by
      simp [detect_stars_and_process, hf]
    rw [hsum]
    simp only [analysis_summaries, analysisFutures, List.map_map, List.mem_map]
    exact ⟨f, hmem, rfl⟩

/-- Witness for C3: one saved file whose load fails yields its error string
among the summaries. -/
theorem analysis_one_result_per_file_witness :
    ("Error loading " ++ spaceFilename 0) ∈
      analysis_summaries envLoadFail [spaceFilename 0] :=
  (analysis_one_result_per_file envLoadFail [spaceFilename 0]).2.2 (spaceFilename 0)
    (by simp) rfl

/-- Claim C6: every dispatched analysis job carries exactly one done-callback
increment of the progress counter, whatever its summary, so the counter ends
at exactly the number of dispatched filenames. -/
theorem analysisCounter_exact (env : AnalysisEnv) (fns : List String) :
    analysisCounter env fns = fns.length ∧
    (∀ i : Nat, ∀ pr : AnalysisEffects × Nat,
      (analysisFutures env fns)[i]? = some pr → pr.2 = 1) := by
  constructor
  · simp only [analysisCounter, analysisFutures, List.map_map]
    induction fns with
    | nil => rfl
    | cons f rest ih =>
        simp only [List.map_cons, List.sum_cons, List.length_cons,
          Function.comp_apply, ih]
        omega
  · intro i pr hpr
    rw [show analysisFutures env fns
          = fns.map (fun f => (detect_stars_and_process env f, 1)) from rfl,
        List.getElem?_map] at hpr
    rcases hf : fns[i]? with _ | f
    · rw [hf] at hpr
      simp at hpr
    · rw [hf] at hpr
      simp at hpr
      rw [← hpr]

/-- Witness for C6: the single dispatched job of a one-file run carries one
increment. -/
theorem analysisCounter_exact_witness :
    ((detect_stars_and_process envLoadOk (spaceFilename 0), 1) :
      AnalysisEffects × Nat).2 = 1 :=
  (analysisCounter_exact envLoadOk [spaceFilename 0]).2 0
    (detect_stars_and_process envLoadOk (spaceFilename 0), 1) rfl

/-- Claim C10: the Analysis Stage's summaries are returned in submission
order — the `i`-th summary is exactly the result of processing the `i`-th
input filename. -/
theorem analysis_summaries_preserve_order (env : AnalysisEnv) (fns : List String) :
    (analysis_summaries env fns).length = fns.length ∧
    (∀ i : Nat, ∀ f : String, fns[i]? = some f →
      (analysis_summaries env fns)[i]? =
        some ((detect_stars_and_process env f).summary)) := by
  constructor
  · simp [analysis_summaries, analysisFutures]
  · intro i f hf
    simp [analysis_summaries, analysisFutures, List.getElem?_map, hf]

/-- Witness for C10: in a one-file run the summary at position 0 is the
result for the file at position 0. -/
theorem analysis_summaries_preserve_order_witness :
    (analysis_summaries envLoadOk [spaceFilename 0])[0]? =
      some ((detect_stars_and_process envLoadOk (spaceFilename 0)).summary) :=
  (analysis_summaries_preserve_order envLoadOk [spaceFilename 0]).2 0
    (spaceFilename 0) rfl

/-- Claim C4: a download whose response status is not 200 prints exactly the
diagnostic `Failed to download {filename}: {status}`, writes nothing, returns
the failure marker `None` (so the truthiness filter excludes it from the
Analysis Stage's input), the stage still has one result per input item, and
every task's entry depends only on that task's own request and write — no
sibling download is affected. -/
theorem download_non200_isolated_failure (env : DownloadEnv) (items : List Item)
    (i : Nat) (u : Option String) (f : String) (st : Nat) (body : List Nat)
    (htask : (downloadTasks items)[i]? = some (u, f))
    (hreq : env.request u = RequestResult.resp st body)
    (hst : st ≠ 200) :
    (downloadStage env items)[i]? = some
      { result := none, written := [],
        diagnostics := ["Failed to download " ++ f ++ ": " ++ toString st],
        pbarIncrements := 0 } ∧
    downloaded_files env items = (download_files env items).filterMap id ∧
    (downloadStage env items).length = items.length ∧
    (∀ env2 : DownloadEnv, ∀ j : Nat, ∀ t : Option String × String,
      (downloadTasks items)[j]? = some t →
      env2.request t.1 = env.request t.1 →
      env2.writeExn t.2 = env.writeExn t.2 →
      (downloadStage env2 items)[j]? = (downloadStage env items)[j]?) := by
  refine ⟨?_, downloaded_files_eq_filterMap env items,
    downloadStage_length env items, ?_⟩
  · rw [downloadStage_getElem, htask]
    simp [download_image, hreq, hst]
  · intro env2 j t htj h1 h2
    have himg : download_image env2 t.1 t.2 = download_image env t.1 t.2 := by
      unfold download_image
      rw [h1, h2]
    rw [downloadStage_getElem, downloadStage_getElem, htj]
    simp [himg]

/-- Witness for C4: one item, a 404 environment — the single task's effects
record a diagnostic, no write, a `None` result and no counter update. -/
theorem download_non200_isolated_failure_witness :
    (downloadStage env404 [imgItem])[0]? = some
      { result := none, written := [],
        diagnostics := ["Failed to download " ++ spaceFilename 0 ++ ": " ++ toString 404],
        pbarIncrements := 0 } :=
  (download_non200_isolated_failure env404 [imgItem] 0
    (some "https://example.com/a.jpg") (spaceFilename 0) 404 [] rfl rfl
    (by decide)).1

/-- Claim C5: a download task in which the request raises, or the request
returns 200 and the write raises, catches the exception inside the task,
prints `Error downloading {filename}: {e}`, updates the progress bar once and
returns the failure marker `None`; the stage still produces one result per
input item, and every other task's entry is `download_image` of that task
alone. -/
theorem download_exception_isolated (env : DownloadEnv) (items : List Item)
    (i : Nat) (u : Option String) (f : String) (e : String)
    (htask : (downloadTasks items)[i]? = some (u, f))
    (hexn : env.request u = RequestResult.exn e ∨
      ∃ body : List Nat, env.request u = RequestResult.resp 200 body ∧
        env.writeExn f = some e) :
    (downloadStage env items)[i]? = some
      { result := none, written := [],
        diagnostics := ["Error downloading " ++ f ++ ": " ++ e],
        pbarIncrements := 1 } ∧
    (downloadStage env items).length = items.length ∧
    (∀ j : Nat, ∀ t : Option String × String,
      (downloadTasks items)[j]? = some t →
      (downloadStage env items)[j]? = some (download_image env t.1 t.2)) := by
  refine ⟨?_, downloadStage_length env items, ?_⟩
  · rw [downloadStage_getElem, htask]
    rcases hexn with hreq | ⟨body, hreq, hw⟩
    · simp [download_image, hreq]
    · simp [download_image, hreq, hw]
  · intro j t htj
    rw [downloadStage_getElem, htj]
    rfl

/-- Witness for C5: one item in an environment where every request raises
`boom` — the task's effects are the caught-exception ones. -/
theorem download_exception_isolated_witness :
    (downloadStage envExn [imgItem])[0]? = some
      { result := none, written := [],
        diagnostics := ["Error downloading " ++ spaceFilename 0 ++ ": " ++ "boom"],
        pbarIncrements := 1 } :=
  (download_exception_isolated envExn [imgItem] 0
    (some "https://example.com/a.jpg") (spaceFilename 0) "boom" rfl (Or.inl rfl)).1

/-- Claim C7: the Metadata Fetcher's filter keeps exactly the items whose
`media_type` equals `"image"` — it is an order-preserving sublist of the
response, every kept item is an image, every image item of the response is
kept (with its exact multiplicity), and exactly one download task is
generated per kept item. -/
theorem validItems_filters_images (data : List Item) :
    (validItems data).Sublist data ∧
    (∀ it : Item, it ∈ validItems data → it.media_type = some "image") ∧
    (∀ it : Item, it ∈ data → it.media_type = some "image" →
      it ∈ validItems data) ∧
    (∀ it : Item, (validItems data).count it =
      if it.media_type = some "image" then data.count it else 0) ∧
    (downloadTasks (validItems data)).length = (validItems data).length := by
  refine ⟨List.filter_sublist data, ?_, ?_, ?_, ?_⟩
  · intro it hmem
    have h := (List.mem_filter.mp hmem).2
    simpa using h
  · intro it hmem hmedia
    exact List.mem_filter.mpr ⟨hmem, by simpa using hmedia⟩
  · intro it
    by_cases h : it.media_type = some "image"
    · rw [if_pos h]
      exact List.count_filter (by simpa using h)
    · rw [if_neg h]
      refine List.count_eq_zero.mpr (fun hmem => h ?_)
      have h2 := (List.mem_filter.mp hmem).2
      simpa using h2
  · simp [downloadTasks]

/-- Witness for C7: in a mixed image/video response, the image item is kept. -/
theorem validItems_filters_images_witness :
    imgItem ∈ validItems [imgItem, videoItem] :=
  (validItems_filters_images [imgItem, videoItem]).2.2.1 imgItem (by simp) rfl

/-- Counterexample to C8 as stated: for an item whose `hdurl` is present but
empty (`""`), the spec's reading ("hdurl if present else url") picks the
empty `hdurl`, while the code's `item.get("hdurl") or item.get("url")` treats
the falsy empty string as absent and picks `url`. -/
theorem chooseUrl_empty_hdurl_counterexample :
    chooseUrl itemEmptyHd = some "https://example.com/a.jpg" ∧
    specChooseUrl itemEmptyHd = some "" ∧
    chooseUrl itemEmptyHd ≠ specChooseUrl itemEmptyHd := by
  refine ⟨rfl, rfl, ?_⟩
  decide

/-- Claim C8 as amended: the download URL is the item's `hdurl` whenever that
field is present and non-empty (truthy), and otherwise the item's `url`. -/
theorem chooseUrl_amended (item : Item) :
    (∀ s : String, item.hdurl = some s → s ≠ "" → chooseUrl item = some s) ∧
    ((item.hdurl = none ∨ item.hdurl = some "") → chooseUrl item = item.url) := by
  constructor
  · intro s hs hne
    simp [chooseUrl, pyTruthy, hs, hne]
  · rintro (h | h) <;> simp [chooseUrl, pyTruthy, h]

/-- Witness for C8 (amended): the item with an empty `hdurl` falls back to
its `url`. -/
theorem chooseUrl_amended_witness :
    chooseUrl itemEmptyHd = itemEmptyHd.url :=
  (chooseUrl_amended itemEmptyHd).2 (Or.inr rfl)
